import Mathlib

/-!
Shallow embedding of the marker-detection pipeline of `CropOnMarkers.py`
(OMRChecker).  Images and correlation-response arrays are modelled as 2-D
rasters with explicit dimensions: grayscale images carry integer (uint8)
pixel values, correlation-response arrays carry rational values standing in
for the float32 scores of `cv2.matchTemplate`.  OpenCV helpers that the
repository code calls are either embedded from the spec (when the helper
lives outside `src/`, e.g. `ImageUtils.normalize_util`) or abstracted as
function parameters (when they stand for the full cross-correlation, which
the claims quantify over).
-/

namespace OMRChecker

/-- A 2-D raster modelling a numpy array: explicit dimensions plus the value
at each cell, indexed as `val x y` with `x` the column and `y` the row. -/
structure Raster (α : Type) where
  width : Nat
  height : Nat
  val : Nat → Nat → α

/-- Grayscale image with integer (uint8-range) pixel values. -/
abbrev GrayImg := Raster ℤ

/-- Correlation-response array with rational scores (float32 in the code). -/
abbrev RespArr := Raster ℚ

/-- Row-major list of all in-bounds cell coordinates of a raster. -/
def Raster.positions {α : Type} (m : Raster α) : List (Nat × Nat) :=
  (List.range m.height).flatMap (fun y => (List.range m.width).map (fun x => (x, y)))

/-- Maximum of a list of values (`0` for the empty list, which the code never
hits on a real array). -/
def listMax0 {α : Type} [LinearOrder α] [Zero α] : List α → α
  | [] => 0
  | x :: xs => xs.foldl max x

/-- Minimum of a list of values (`0` for the empty list). -/
def listMin0 {α : Type} [LinearOrder α] [Zero α] : List α → α
  | [] => 0
  | x :: xs => xs.foldl min x

/-- Largest cell value of a raster. -/
def Raster.maxVal {α : Type} [LinearOrder α] [Zero α] (m : Raster α) : α :=
  listMax0 (m.positions.map (fun p => m.val p.1 p.2))

/-- Smallest cell value of a raster. -/
def Raster.minVal {α : Type} [LinearOrder α] [Zero α] (m : Raster α) : α :=
  listMin0 (m.positions.map (fun p => m.val p.1 p.2))

/-- Modelled from the spec: `ImageUtils.normalize_util` (`src/utils/image.py`
is not under `src/`).  Spec 4.1: "linear stretch of pixel intensities to a
fixed output range"; the fixed range is 0..255 and the result is a uint8
image, so the stretched value is truncated to an integer.  A constant image
maps to 0. -/
def normalize_util (m : GrayImg) : GrayImg :=
  let mn := m.minVal
  let mx := m.maxVal
  { m with val := fun x y => if mx = mn then 0 else (m.val x y - mn) * 255 / (mx - mn) }

/-- In-bounds coordinates covered by a size-`k` morphology window centred at
`c` (anchor at `k / 2`), inside `0 ≤ i < bound`. -/
def windowIdx (k c bound : Nat) : List Nat :=
  (List.range k).filterMap (fun i =>
    let z : Int := (c : Int) + (i : Int) - ((k / 2 : Nat) : Int)
    if 0 ≤ z ∧ z < (bound : Int) then some z.toNat else none)

/-- Modelled from the spec: one `cv2.erode` pass with an all-ones `k × k`
kernel — each pixel becomes the minimum over its window, out-of-bounds
neighbours ignored (OpenCV's default border value does not affect the
minimum). -/
def erodeOnce (k : Nat) (m : GrayImg) : GrayImg :=
  { m with
    val := fun x y =>
      listMin0 ((windowIdx k y m.height).flatMap (fun yw =>
        (windowIdx k x m.width).map (fun xw => m.val xw yw))) }

/-- Modelled from the spec: `erode(image, kernelSize, iterations)` (spec 4.1),
iterated erosion. -/
def erode (k iters : Nat) (m : GrayImg) : GrayImg :=
  Nat.rec m (fun _ acc => erodeOnce k acc) iters

/-- Pointwise image subtraction (`image - erode(image, ...)`); the difference
is non-negative because erosion never exceeds the centre pixel, so uint8
wrap-around cannot occur. -/
def imgSub (a b : GrayImg) : GrayImg :=
  { a with val := fun x y => a.val x y - b.val x y }

/-- Modelled from the spec: `EROSION_PARAMS` (`src/constants/image_processing.py`
is not under `src/`); the kernel is `np.ones((5, 5))` and the iteration count
is 2, as recorded by the source's own comment "iterations : Tuned to 2.
image_eroded_sub = image_norm - cv2.erode(image_norm, kernel=np.ones((5,5)),
iterations=2)". -/
def EROSION_PARAMS_kernel_size : Nat := 5

/-- Modelled from the spec: the erosion iteration count of `EROSION_PARAMS`. -/
def EROSION_PARAMS_iterations : Nat := 2

/-- `CropOnMarkers.apply_filter`, lines 117-128: the working image
(`image_eroded_sub`) handed to template matching.  Note the branch direction
in the source: the erosion subtraction sits on the `else` (flag-false) side
of the conditional. -/
def prepared_image (apply_erode_subtract : Bool) (image : GrayImg) : GrayImg :=
  normalize_util
    (if apply_erode_subtract then image
     else imgSub image (erode EROSION_PARAMS_kernel_size EROSION_PARAMS_iterations image))

/-- Concrete 12-by-1 test image for the erosion-subtraction claim: black at
both ends, a flat grey band in between. -/
def c1Image : GrayImg := ⟨12, 1, fun x _ => if x = 0 ∨ x = 11 then 0 else 100⟩

/-- C1: the spec says the flag `apply_erode_subtract = true` makes the
prepared working image `normalize(image - erode(image, kernel, iterations))`
and `false` makes it `normalize(image)`.  The code (apply_filter lines
117-128) has the branches inverted: with the flag true it prepares
`normalize(image)` with no erosion subtraction, and performs the subtraction
exactly when the flag is false — even though `load_marker` (lines 308-313)
erode-subtracts the marker precisely when the flag is true.  The two
preparations genuinely differ: on `c1Image` they disagree at pixel (5, 0). -/
theorem c1_erode_subtract_inverted :
    (∀ image : GrayImg, prepared_image true image = normalize_util image) ∧
    (∀ image : GrayImg,
      prepared_image false image =
        normalize_util
          (imgSub image
            (erode EROSION_PARAMS_kernel_size EROSION_PARAMS_iterations image))) ∧
    (prepared_image true c1Image).val 5 0 = 255 ∧
    (normalize_util
      (imgSub c1Image
        (erode EROSION_PARAMS_kernel_size EROSION_PARAMS_iterations c1Image))).val 5 0 = 0 :=
  ⟨fun _ => rfl, fun _ => rfl, by decide, by decide⟩


/-- Modelled after numpy's integer `arange`: the arithmetic progression from
`start` (inclusive) towards `stop` (exclusive) with the given step; `none`
models the exception numpy raises for a zero step. -/
def np_arange (start stop step : Int) : Option (List Int) :=
  if step = 0 then none
  else
    let len : Nat :=
      if 0 < step then ((stop - start + step - 1).fdiv step).toNat
      else ((start - stop + (-step) - 1).fdiv (-step)).toNat
    some ((List.range len).map (fun i => start + step * (i : Int)))

/-- `CropOnMarkers.getBestMatch` lines 321-323 and 328-332: the integer
percent scales the scan iterates over, from `marker_rescale_range[1]` down
towards `marker_rescale_range[0]`.  `descent_per_step` is Python floor
division without any lower clamp; a zero descent (or zero
`marker_rescale_steps`) makes numpy/Python raise, modelled by `none`. -/
def testedScales (rescale_low rescale_high steps : Int) : Option (List Int) :=
  let descent_per_step := (rescale_high - rescale_low).fdiv steps
  np_arange rescale_high rescale_low (-1 * descent_per_step)

/-- One iteration of the scale loop of `CropOnMarkers.getBestMatch` (lines
328-347).  `resp r0` abstracts `cv2.matchTemplate(image_eroded_sub,
rescaled_marker, TM_CCOEFF_NORMED).max()` for the marker rescaled to the
integer percent `r0`; the accumulator is `(best_scale, all_max_t)` and the
update uses strict `<` exactly as `if all_max_t < max_t` does. -/
def scaleStep (resp : Int → ℚ) (acc : Option ℚ × ℚ) (r0 : Int) : Option ℚ × ℚ :=
  let s : ℚ := (r0 : ℚ) * 1 / 100
  if s = 0 then acc
  else
    let max_t := resp r0
    if acc.2 < max_t then (some s, max_t) else acc

/-- `CropOnMarkers.getBestMatch` (lines 319-360): multi-scale template-match
search.  Returns `some (best_scale, all_max_t, warned_low)` where
`warned_low` records whether the "Template matching too low!" warning of
lines 349-352 fires; the outer `none` models the crash when the scale list
cannot be formed (zero decrement). -/
def getBestMatch (resp : Int → ℚ) (rescale_low rescale_high steps : Int)
    (min_matching_threshold : ℚ) : Option (Option ℚ × ℚ × Bool) :=
  match testedScales rescale_low rescale_high steps with
  | none => none
  | some rs =>
      let r := rs.foldl (scaleStep resp) (none, 0)
      some (r.1, r.2, decide (r.2 < min_matching_threshold))

/-- `CropOnMarkers.apply_filter` lines 148-152: the early `return None` —
the rest of the pipeline runs only when `getBestMatch` produced a scale. -/
def applyFilterScaleGate (r : Option ℚ × ℚ × Bool) : Option (ℚ × ℚ) :=
  match r.1 with
  | none => none
  | some s => some (s, r.2.1)

lemma scale_eq_zero_iff (r : Int) : ((r : ℚ) * 1 / 100 = 0) ↔ r = 0 := by
  rw [mul_one, div_eq_zero_iff]
  simp

lemma scaleStep_isSome (resp : Int → ℚ) (acc : Option ℚ × ℚ) (r : Int)
    (h : acc.1.isSome) : ((scaleStep resp acc r).1).isSome := by
  unfold scaleStep
  dsimp only
  split
  · exact h
  · split
    · rfl
    · exact h

lemma foldl_scaleStep_isSome (resp : Int → ℚ) (rs : List Int)
    (acc : Option ℚ × ℚ) (h : acc.1.isSome) :
    ((rs.foldl (scaleStep resp) acc).1).isSome := by
  induction rs generalizing acc with
  | nil => exact h
  | cons r rs ih => exact ih _ (scaleStep_isSome resp acc r h)

lemma foldl_scaleStep_none_iff (resp : Int → ℚ) (rs : List Int) :
    ((rs.foldl (scaleStep resp) (none, 0)).1 = none) ↔
      ∀ r ∈ rs, r ≠ 0 → resp r ≤ 0 := by
  induction rs with
  | nil => simp
  | cons r rs ih =>
    rw [List.foldl_cons]
    by_cases hr : r = 0
    · have hstep : scaleStep resp (none, 0) r = (none, 0) := by
        unfold scaleStep
        simp [scale_eq_zero_iff r |>.mpr, hr]
      rw [hstep, ih]
      constructor
      · intro h r' hr'
        rcases List.mem_cons.mp hr' with h0 | h1
        · intro hne; exact absurd (h0 ▸ hr) hne
        · exact h r' h1
      · intro h r' hr'
        exact h r' (List.mem_cons_of_mem r hr')
    · have hs : ¬((r : ℚ) * 1 / 100 = 0) := fun h => hr ((scale_eq_zero_iff r).mp h)
      by_cases hpos : (0 : ℚ) < resp r
      · have hstep : scaleStep resp (none, 0) r =
            (some ((r : ℚ) * 1 / 100), resp r) := by
          unfold scaleStep
          simp [hs, hpos, hr]
        rw [hstep]
        have hsome := foldl_scaleStep_isSome resp rs
          (some ((r : ℚ) * 1 / 100), resp r) rfl
        constructor
        · intro h
          rw [h] at hsome
          exact absurd hsome (by simp)
        · intro h
          exact absurd hpos (not_lt.mpr (h r (List.mem_cons_self r rs) hr))
      · push_neg at hpos
        have hstep : scaleStep resp (none, 0) r = (none, 0) := by
          unfold scaleStep
          simp [hs, not_lt.mpr hpos, hr]
        rw [hstep, ih]
        constructor
        · intro h r' hr'
          rcases List.mem_cons.mp hr' with h0 | h1
          · intro _; exact h0 ▸ hpos
          · exact h r' h1
        · intro h r' hr'
          exact h r' (List.mem_cons_of_mem r hr')

lemma foldl_scaleStep_cases (resp : Int → ℚ) (rs : List Int) :
    rs.foldl (scaleStep resp) (none, 0) = (none, 0) ∨
      ((rs.foldl (scaleStep resp) (none, 0)).1).isSome := by
  induction rs with
  | nil => exact Or.inl rfl
  | cons r rs ih =>
    rw [List.foldl_cons]
    rcases h : scaleStep resp (none, 0) r with ⟨b, t⟩
    rcases b with _ | s
    · have hnt : t = 0 := by
        unfold scaleStep at h
        dsimp only at h
        split at h
        · exact (Prod.mk.injEq _ _ _ _ ▸ h).2.symm ▸ rfl
        · split at h
          · exact absurd (Prod.mk.injEq _ _ _ _ ▸ h).1 (by simp)
          · exact ((Prod.mk.injEq _ _ _ _ ▸ h).2).symm ▸ rfl
      rw [hnt]
      exact ih
    · exact Or.inr (foldl_scaleStep_isSome resp rs (some s, t) rfl)


lemma foldl_scaleStep_char (resp : Int → ℚ) :
    ∀ (rs : List Int) (acc : Option ℚ × ℚ),
      (rs.foldl (scaleStep resp) acc = acc ∧ ∀ r ∈ rs, r ≠ 0 → resp r ≤ acc.2) ∨
      ∃ (l₁ : List Int) (r : Int) (l₂ : List Int), rs = l₁ ++ r :: l₂ ∧ r ≠ 0 ∧
        rs.foldl (scaleStep resp) acc = (some ((r : ℚ) * 1 / 100), resp r) ∧
        acc.2 < resp r ∧
        (∀ r' ∈ l₁, r' = 0 ∨ resp r' < resp r) ∧
        (∀ r'' ∈ l₂, r'' = 0 ∨ resp r'' ≤ resp r) := by
  intro rs
  induction rs with
  | nil => intro acc; exact Or.inl ⟨rfl, by simp⟩
  | cons r0 rs ih =>
    intro acc
    rw [List.foldl_cons]
    by_cases hr0 : r0 = 0
    · have hstep : scaleStep resp acc r0 = acc := by
        unfold scaleStep
        simp [scale_eq_zero_iff r0 |>.mpr, hr0]
      rw [hstep]
      rcases ih acc with ⟨heq, hall⟩ | ⟨l₁, r, l₂, hsplit, hr, hout, hacc, h₁, h₂⟩
      · refine Or.inl ⟨heq, ?_⟩
        intro r' hr'
        rcases List.mem_cons.mp hr' with h | h
        · intro hne; exact absurd (h ▸ hr0) hne
        · exact hall r' h
      · refine Or.inr ⟨r0 :: l₁, r, l₂, by rw [hsplit]; rfl, hr, hout, hacc, ?_, h₂⟩
        intro r' hr'
        rcases List.mem_cons.mp hr' with h | h
        · exact Or.inl (h ▸ hr0)
        · exact h₁ r' h
    · have hs : ¬((r0 : ℚ) * 1 / 100 = 0) := fun h => hr0 ((scale_eq_zero_iff r0).mp h)
      by_cases hlt : acc.2 < resp r0
      · have hstep : scaleStep resp acc r0 = (some ((r0 : ℚ) * 1 / 100), resp r0) := by
          unfold scaleStep
          simp [hs, hlt, hr0]
        rw [hstep]
        rcases ih (some ((r0 : ℚ) * 1 / 100), resp r0) with ⟨heq, hall⟩ |
            ⟨l₁, r, l₂, hsplit, hr, hout, hacc, h₁, h₂⟩
        · refine Or.inr ⟨[], r0, rs, rfl, hr0, heq, hlt, by simp, ?_⟩
          intro r'' h
          by_cases hz : r'' = 0
          · exact Or.inl hz
          · exact Or.inr (hall r'' h hz)
        · refine Or.inr ⟨r0 :: l₁, r, l₂, by rw [hsplit]; rfl, hr, hout,
            lt_trans hlt hacc, ?_, h₂⟩
          intro r' hr'
          rcases List.mem_cons.mp hr' with h | h
          · exact Or.inr (h ▸ hacc)
          · exact h₁ r' h
      · have hstep : scaleStep resp acc r0 = acc := by
          unfold scaleStep
          simp [hs, hlt, hr0]
        rw [hstep]
        push_neg at hlt
        rcases ih acc with ⟨heq, hall⟩ | ⟨l₁, r, l₂, hsplit, hr, hout, hacc, h₁, h₂⟩
        · refine Or.inl ⟨heq, ?_⟩
          intro r' hr'
          rcases List.mem_cons.mp hr' with h | h
          · intro _; exact h ▸ hlt
          · exact hall r' h
        · refine Or.inr ⟨r0 :: l₁, r, l₂, by rw [hsplit]; rfl, hr, hout, hacc, ?_, h₂⟩
          intro r' hr'
          rcases List.mem_cons.mp hr' with h | h
          · exact Or.inr (h ▸ lt_of_le_of_lt hlt hacc)
          · exact h₁ r' h

/-- C2 counterexample: with the default configuration
(`marker_rescale_range = (35, 100)`, 10 steps, threshold 0.3) and every
tested scale's maximum correlation response equal to 1/5 — strictly below
the threshold — `getBestMatch` does NOT return a `(none, 0)`-equivalent
result: it returns scale 1.0 with score 1/5 (the low-match warning fires),
and the scale gate of apply_filter lines 148-152 lets the image continue
instead of returning the failure sentinel. -/
theorem c2_below_threshold_counterexample :
    ((1 : ℚ) / 5 < 3 / 10) ∧
    getBestMatch (fun _ => 1 / 5) 35 100 10 (3 / 10) =
      some (some 1, 1 / 5, true) ∧
    applyFilterScaleGate (some 1, 1 / 5, true) = some (1, 1 / 5) := by
  refine ⟨by norm_num, ?_, rfl⟩
  have hts : testedScales 35 100 10 =
      some [100, 94, 88, 82, 76, 70, 64, 58, 52, 46, 40] := by decide
  unfold getBestMatch
  rw [hts]
  norm_num [scaleStep]

/-- C2 (amended): `getBestMatch` returns the `(None, 0)` sentinel exactly
when NO tested (nonzero) scale has a strictly positive maximum response —
not whenever every response stays below `min_matching_threshold`.  A
response that is positive but below the threshold still yields that scale;
only the low-match warning (lines 349-352) fires, recorded in the third
component; and apply_filter's early `return None` (lines 148-152) triggers
exactly on the `None` sentinel. -/
theorem c2_none_sentinel_iff_no_positive_response
    (resp : Int → ℚ) (rescale_low rescale_high steps : Int)
    (min_matching_threshold : ℚ) (rs : List Int)
    (hrs : testedScales rescale_low rescale_high steps = some rs) :
    ∃ (best : Option ℚ) (all_max_t : ℚ) (warned : Bool),
      getBestMatch resp rescale_low rescale_high steps min_matching_threshold =
        some (best, all_max_t, warned) ∧
      (best = none ↔ ∀ r ∈ rs, r ≠ 0 → resp r ≤ 0) ∧
      (best = none → all_max_t = 0) ∧
      (warned = true ↔ all_max_t < min_matching_threshold) ∧
      (applyFilterScaleGate (best, all_max_t, warned) = none ↔ best = none) := by
  refine ⟨(rs.foldl (scaleStep resp) (none, 0)).1,
    (rs.foldl (scaleStep resp) (none, 0)).2,
    decide ((rs.foldl (scaleStep resp) (none, 0)).2 < min_matching_threshold),
    ?_, foldl_scaleStep_none_iff resp rs, ?_, by simp, ?_⟩
  · unfold getBestMatch
    rw [hrs]
  · intro h
    rcases foldl_scaleStep_cases resp rs with hc | hc
    · rw [hc]
    · rw [h] at hc
      exact absurd hc (by simp)
  · unfold applyFilterScaleGate
    rcases h : (rs.foldl (scaleStep resp) (none, 0)).1 with _ | s <;> simp [h]

/-- C2 witness: the amended characterisation applied to a two-scale
configuration with all responses equal to 1 and threshold 1. -/
theorem c2_none_sentinel_witness :
    ∃ (best : Option ℚ) (all_max_t : ℚ) (warned : Bool),
      getBestMatch (fun _ => 1) 90 100 2 1 = some (best, all_max_t, warned) ∧
      (best = none ↔ ∀ r ∈ ([100, 95] : List Int), r ≠ 0 →
        (fun _ => (1 : ℚ)) r ≤ 0) ∧
      (best = none → all_max_t = 0) ∧
      (warned = true ↔ all_max_t < 1) ∧
      (applyFilterScaleGate (best, all_max_t, warned) = none ↔ best = none) :=
  c2_none_sentinel_iff_no_positive_response (fun _ => 1) 90 100 2 1
    [100, 95] (by decide)

/-- C3: the spec claims the scale decrement `(high-low)/steps` is clamped to
at least 1 percent and that a range with `low == high` still performs exactly
one scale evaluation.  The code (lines 321-332) has no clamp: with the range
`(100, 100)` and 10 steps the decrement is 0, `np.arange(100, 100, 0)`
raises, and `getBestMatch` performs zero scale evaluations; the same happens
for the range `(35, 40)` since `5 // 10 = 0`.  Even with a nonzero step,
`low == high` would test zero scales, because `arange` excludes the stop. -/
theorem c3_zero_descent_not_one_evaluation :
    ((100 : Int) - 100).fdiv 10 = 0 ∧
    testedScales 100 100 10 = none ∧
    getBestMatch (fun _ => 1) 100 100 10 (3 / 10) = none ∧
    ((40 : Int) - 35).fdiv 10 = 0 ∧
    getBestMatch (fun _ => 1) 35 40 10 (3 / 10) = none ∧
    np_arange 100 100 (-1) = some [] := by
  refine ⟨by decide, by decide, ?_, by decide, ?_, by decide⟩
  · unfold getBestMatch
    rw [(by decide : testedScales 100 100 10 = none)]
  · unfold getBestMatch
    rw [(by decide : testedScales 35 40 10 = none)]

/-- C8: when `getBestMatch` returns a scale, that scale's maximum response is
greater than or equal to that of every other tested scale, and it is the
FIRST tested — hence largest, since the scan runs high-to-low — scale
attaining that response: every scale tested before it responds strictly
lower (updates use strict `>`), so ties go to the earlier, larger scale. -/
theorem c8_returned_scale_first_maximum
    (resp : Int → ℚ) (rescale_low rescale_high steps : Int) (θ : ℚ)
    (rs : List Int) (b t : ℚ) (w : Bool)
    (hrs : testedScales rescale_low rescale_high steps = some rs)
    (hb : getBestMatch resp rescale_low rescale_high steps θ =
      some (some b, t, w)) :
    0 < t ∧
    (∀ r ∈ rs, r ≠ 0 → resp r ≤ t) ∧
    ∃ (l₁ : List Int) (r : Int) (l₂ : List Int),
      rs = l₁ ++ r :: l₂ ∧ r ≠ 0 ∧ b = (r : ℚ) * 1 / 100 ∧
      resp r = t ∧ ∀ r' ∈ l₁, r' = 0 ∨ resp r' < t := by
  unfold getBestMatch at hb
  rw [hrs] at hb
  simp only [Option.some.injEq, Prod.mk.injEq] at hb
  obtain ⟨hb1, hb2, -⟩ := hb
  rcases foldl_scaleStep_char resp rs (none, 0) with ⟨heq, -⟩ |
      ⟨l₁, r, l₂, hsplit, hr, hout, hacc, h₁, h₂⟩
  · rw [heq] at hb1
    exact absurd hb1 (by simp)
  · have hbv : (r : ℚ) * 1 / 100 = b := by
      rw [hout] at hb1
      exact Option.some.inj hb1
    have htv : resp r = t := by
      rw [hout] at hb2
      exact hb2
    have h0t : (0 : ℚ) < t := htv ▸ hacc
    refine ⟨h0t, ?_, l₁, r, l₂, hsplit, hr, hbv.symm, htv, ?_⟩
    · intro r' hr'
      rw [hsplit] at hr'
      rcases List.mem_append.mp hr' with h | h
      · intro hne
        rcases h₁ r' h with h0 | h0
        · exact absurd h0 hne
        · exact le_of_lt (htv ▸ h0)
      · rcases List.mem_cons.mp h with h0 | h0
        · intro _
          exact le_of_eq (h0 ▸ htv)
        · intro hne
          rcases h₂ r' h0 with hz | hle
          · exact absurd hz hne
          · exact htv ▸ hle
    · intro r' hr'
      rcases h₁ r' hr' with h0 | h0
      · exact Or.inl h0
      · exact Or.inr (htv ▸ h0)

/-- C8 witness: two tested scales (100 and 95 percent) with equal responses;
the returned scale is 1.0, the first-tested and larger one. -/
theorem c8_first_maximum_witness :
    (0 : ℚ) < 2 ∧
    (∀ r ∈ ([100, 95] : List Int), r ≠ 0 → (fun _ => (2 : ℚ)) r ≤ 2) ∧
    ∃ (l₁ : List Int) (r : Int) (l₂ : List Int),
      ([100, 95] : List Int) = l₁ ++ r :: l₂ ∧ r ≠ 0 ∧
      (1 : ℚ) = (r : ℚ) * 1 / 100 ∧ (fun _ => (2 : ℚ)) r = 2 ∧
      ∀ r' ∈ l₁, r' = 0 ∨ (fun _ => (2 : ℚ)) r' < 2 :=
  c8_returned_scale_first_maximum (fun _ => 2) 90 100 2 1 [100, 95] 1 2 false
    (by decide)
    (by
      have hts : testedScales 90 100 2 = some [100, 95] := by decide
      unfold getBestMatch
      rw [hts]
      norm_num [scaleStep])


/-- Step of the running-maximum scan modelling `cv2.minMaxLoc`: strict `<`
keeps the first (row-major) location on ties. -/
def mmlStep (m : RespArr) (best : ℚ × Nat × Nat) (p : Nat × Nat) : ℚ × Nat × Nat :=
  if best.1 < m.val p.1 p.2 then (m.val p.1 p.2, p.1, p.2) else best

/-- The `(max_val, max_loc)` part of `cv2.minMaxLoc` (line 70): the maximum
response value and its first row-major location. -/
def minMaxLocMax (m : RespArr) : ℚ × Nat × Nat :=
  m.positions.foldl (mmlStep m) (m.val 0 0, 0, 0)

/-- The numpy slice assignment `res_work[y0:y1+1, x0:x1+1] = 0` of line 79. -/
def zeroWindow (m : RespArr) (x0 x1 y0 y1 : Nat) : RespArr :=
  { m with val := fun x y =>
      if x0 ≤ x ∧ x ≤ x1 ∧ y0 ≤ y ∧ y ≤ y1 then 0 else m.val x y }

/-- Suppression half-width of `_get_centres_global` lines 66-67:
`max(1, int(side * 0.9))`. -/
def suppressHalf (side : Nat) : Nat := max 1 (9 * side / 10)

/-- The `max_candidates` bound of line 68. -/
def max_candidates : Nat := 20

/-- Candidate-collection loop of `_get_centres_global` (lines 69-79): take
the current maximum response; stop if it is below the threshold; otherwise
record `(max_val, x, y)` and zero the suppression window (clamped to the
array bounds) before continuing on the remaining fuel. -/
def collectCandidates (threshold : ℚ) (sx sy : Nat) :
    Nat → RespArr → List (ℚ × Nat × Nat)
  | 0, _ => []
  | fuel + 1, work =>
      let m := minMaxLocMax work
      if m.1 < threshold then []
      else
        m :: collectCandidates threshold sx sy fuel
          (zeroWindow work (m.2.1 - sx) (min (work.width - 1) (m.2.1 + sx))
            (m.2.2 - sy) (min (work.height - 1) (m.2.2 + sy)))

/-- Membership of candidate `b` in the clamped suppression window centred at
candidate `a` (the region zeroed by line 79 for an array of size `W × H`). -/
def inSuppressionWindow (W H sx sy : Nat) (a b : ℚ × Nat × Nat) : Prop :=
  a.2.1 - sx ≤ b.2.1 ∧ b.2.1 ≤ min (W - 1) (a.2.1 + sx) ∧
  a.2.2 - sy ≤ b.2.2 ∧ b.2.2 ≤ min (H - 1) (a.2.2 + sy)

lemma mmlStep_val (m : RespArr) (acc : ℚ × Nat × Nat) (p : Nat × Nat)
    (h : acc.1 = m.val acc.2.1 acc.2.2) :
    (mmlStep m acc p).1 = m.val (mmlStep m acc p).2.1 (mmlStep m acc p).2.2 := by
  unfold mmlStep
  split
  · rfl
  · exact h

lemma foldl_mmlStep_val (m : RespArr) (ps : List (Nat × Nat)) :
    ∀ acc : ℚ × Nat × Nat, acc.1 = m.val acc.2.1 acc.2.2 →
      (ps.foldl (mmlStep m) acc).1 =
        m.val ((ps.foldl (mmlStep m) acc).2.1) ((ps.foldl (mmlStep m) acc).2.2) := by
  induction ps with
  | nil => intro acc h; exact h
  | cons p ps ih => intro acc h; exact ih _ (mmlStep_val m acc p h)

lemma minMaxLocMax_val (m : RespArr) :
    (minMaxLocMax m).1 = m.val (minMaxLocMax m).2.1 (minMaxLocMax m).2.2 :=
  foldl_mmlStep_val m m.positions _ rfl

lemma zeroWindow_val (m : RespArr) (x0 x1 y0 y1 x y : Nat) :
    (zeroWindow m x0 x1 y0 y1).val x y =
      if x0 ≤ x ∧ x ≤ x1 ∧ y0 ≤ y ∧ y ≤ y1 then 0 else m.val x y := rfl

lemma zeroWindow_zero_persists (m : RespArr) (x0 x1 y0 y1 x y : Nat)
    (h : m.val x y = 0) : (zeroWindow m x0 x1 y0 y1).val x y = 0 := by
  rw [zeroWindow_val]
  split
  · rfl
  · exact h

lemma collectCandidates_length_le (threshold : ℚ) (sx sy : Nat) :
    ∀ (fuel : Nat) (work : RespArr),
      (collectCandidates threshold sx sy fuel work).length ≤ fuel := by
  intro fuel
  induction fuel with
  | zero => intro work; exact Nat.le_refl 0
  | succ n ih =>
    intro work
    unfold collectCandidates
    dsimp only
    split
    · exact Nat.zero_le _
    · exact Nat.succ_le_succ (ih _)

lemma collectCandidates_avoid (threshold : ℚ) (sx sy : Nat)
    (hthr : 0 < threshold) :
    ∀ (fuel : Nat) (work : RespArr) (x y : Nat), work.val x y = 0 →
      ∀ c ∈ collectCandidates threshold sx sy fuel work,
        (c.2.1, c.2.2) ≠ (x, y) := by
  intro fuel
  induction fuel with
  | zero =>
    intro work x y hz c hc
    exact absurd hc (by simp [collectCandidates])
  | succ n ih =>
    intro work x y hz c hc
    unfold collectCandidates at hc
    dsimp only at hc
    split at hc
    · exact absurd hc (by simp)
    · rename_i hge
      rcases List.mem_cons.mp hc with hhead | htail
      · intro hloc
        have hv := minMaxLocMax_val work
        have hx : (minMaxLocMax work).2.1 = x := by
          have := congrArg Prod.fst hloc
          simpa [hhead] using this
        have hy : (minMaxLocMax work).2.2 = y := by
          have := congrArg Prod.snd hloc
          simpa [hhead] using this
        rw [hx, hy, hz] at hv
        rw [hv] at hge
        exact hge hthr
      · exact ih _ x y (zeroWindow_zero_persists _ _ _ _ _ _ _ hz) c htail

lemma collectCandidates_pairwise (threshold : ℚ) (sx sy : Nat)
    (hthr : 0 < threshold) :
    ∀ (fuel : Nat) (work : RespArr),
      (collectCandidates threshold sx sy fuel work).Pairwise
        (fun a b => ¬ inSuppressionWindow work.width work.height sx sy a b) := by
  intro fuel
  induction fuel with
  | zero => intro work; exact List.Pairwise.nil
  | succ n ih =>
    intro work
    unfold collectCandidates
    dsimp only
    split
    · exact List.Pairwise.nil
    · refine List.Pairwise.cons ?_
        (ih (zeroWindow work ((minMaxLocMax work).2.1 - sx)
          (min (work.width - 1) ((minMaxLocMax work).2.1 + sx))
          ((minMaxLocMax work).2.2 - sy)
          (min (work.height - 1) ((minMaxLocMax work).2.2 + sy))))
      intro b hb hwin
      obtain ⟨h1, h2, h3, h4⟩ := hwin
      have hzero :
          (zeroWindow work ((minMaxLocMax work).2.1 - sx)
            (min (work.width - 1) ((minMaxLocMax work).2.1 + sx))
            ((minMaxLocMax work).2.2 - sy)
            (min (work.height - 1) ((minMaxLocMax work).2.2 + sy))).val
              b.2.1 b.2.2 = 0 := by
        rw [zeroWindow_val]
        rw [if_pos ⟨h1, h2, h3, h4⟩]
      exact collectCandidates_avoid threshold sx sy hthr n _ b.2.1 b.2.2 hzero b hb rfl

/-- C6: for any strictly positive matching threshold, after the global scan
records a candidate it zeroes every response value inside the clamped
suppression window (90 percent of the scaled marker dimensions via
`suppressHalf`, clamped to the response-array bounds), and consequently no
later candidate of the same scan lies inside the suppression window of any
earlier one. -/
theorem c6_suppression_window_excludes_later_candidates
    (res : RespArr) (threshold : ℚ) (w h : Nat) (hthr : 0 < threshold) :
    (∀ (work : RespArr) (x y x' y' : Nat),
      x - suppressHalf w ≤ x' → x' ≤ min (work.width - 1) (x + suppressHalf w) →
      y - suppressHalf h ≤ y' → y' ≤ min (work.height - 1) (y + suppressHalf h) →
      (zeroWindow work (x - suppressHalf w) (min (work.width - 1) (x + suppressHalf w))
        (y - suppressHalf h) (min (work.height - 1) (y + suppressHalf h))).val x' y' = 0) ∧
    (collectCandidates threshold (suppressHalf w) (suppressHalf h)
        max_candidates res).Pairwise
      (fun a b => ¬ inSuppressionWindow res.width res.height
        (suppressHalf w) (suppressHalf h) a b) := by
  constructor
  · intro work x y x' y' h1 h2 h3 h4
    rw [zeroWindow_val]
    rw [if_pos ⟨h1, h2, h3, h4⟩]
  · exact collectCandidates_pairwise threshold _ _ hthr max_candidates res

/-- Concrete 2-by-2 response array for the suppression witness. -/
def c6Res : RespArr := ⟨2, 2, fun x y => (x : ℚ) + 2 * (y : ℚ)⟩

/-- C6 witness: the suppression guarantee applied to a concrete 2-by-2
response array with threshold 1 and marker size 2-by-2. -/
theorem c6_suppression_witness :
    (∀ (work : RespArr) (x y x' y' : Nat),
      x - suppressHalf 2 ≤ x' → x' ≤ min (work.width - 1) (x + suppressHalf 2) →
      y - suppressHalf 2 ≤ y' → y' ≤ min (work.height - 1) (y + suppressHalf 2) →
      (zeroWindow work (x - suppressHalf 2) (min (work.width - 1) (x + suppressHalf 2))
        (y - suppressHalf 2) (min (work.height - 1) (y + suppressHalf 2))).val x' y' = 0) ∧
    (collectCandidates 1 (suppressHalf 2) (suppressHalf 2)
        max_candidates c6Res).Pairwise
      (fun a b => ¬ inSuppressionWindow c6Res.width c6Res.height
        (suppressHalf 2) (suppressHalf 2) a b) :=
  c6_suppression_window_excludes_later_candidates c6Res 1 2 2 (by norm_num)


/-- `itertools.combinations`: every length-`n` sublist, in the order Python
emits them (lexicographic in the positions of the input list). -/
def combosLen {α : Type} : Nat → List α → List (List α)
  | 0, _ => [[]]
  | _ + 1, [] => []
  | n + 1, a :: as => ((combosLen n as).map (fun c => a :: c)) ++ combosLen (n + 1) as

/-- Centres of a candidate combination (lines 93-95 and 109): top-left
corner plus half the scaled marker width and height. -/
def comboCentres (w h : Nat) (c : List (ℚ × Nat × Nat)) : List (ℚ × ℚ) :=
  c.map (fun t => ((t.2.1 : ℚ) + (w : ℚ) / 2, (t.2.2 : ℚ) + (h : ℚ) / 2))

/-- Axis-aligned bounding-box area spanned by the centres of a combination
(lines 96-99). -/
def comboArea (w h : Nat) (c : List (ℚ × Nat × Nat)) : ℚ :=
  let xs := (comboCentres w h c).map Prod.fst
  let ys := (comboCentres w h c).map Prod.snd
  (listMax0 xs - listMin0 xs) * (listMax0 ys - listMin0 ys)

/-- Summed match score of a combination (line 100). -/
def comboScore (c : List (ℚ × Nat × Nat)) : ℚ :=
  (c.map (fun t => t.1)).sum

/-- Loop body of lines 101-104: the running best combination is replaced
exactly when `best_area is None`, the area strictly increases, or the area
ties and the summed score strictly increases. -/
def selBestStep (w h : Nat) (best : Option (List (ℚ × Nat × Nat)))
    (c : List (ℚ × Nat × Nat)) : Option (List (ℚ × Nat × Nat)) :=
  match best with
  | none => some c
  | some b =>
      if comboArea w h c > comboArea w h b ∨
          (comboArea w h c = comboArea w h b ∧ comboScore c > comboScore b)
      then some c else some b

/-- Lines 89-104: the fold over all 4-combinations selecting the best one. -/
def selectBest (w h : Nat) (combos : List (List (ℚ × Nat × Nat))) :
    Option (List (ℚ × Nat × Nat)) :=
  combos.foldl (selBestStep w h) none

/-- `_get_centres_global` lines 88-112: combination selection over the up to
12 first-collected (highest-scoring) candidates, together with the derived
centres, diagnostic rectangles and average score. -/
def centresFromCandidates (w h : Nat) (cands : List (ℚ × Nat × Nat)) :
    Option (List (ℚ × ℚ) × List (Nat × Nat × Nat × Nat) × ℚ) :=
  let top_k := cands.take (min cands.length 12)
  match selectBest w h (combosLen 4 top_k) with
  | none => none
  | some best =>
      some (comboCentres w h best,
        best.map (fun t => (t.2.1, t.2.2, w, h)), comboScore best / 4)

/-- `CropOnMarkers._get_centres_global` (lines 59-112).  `res` abstracts the
full-image response `cv2.matchTemplate(image_eroded_sub, optimal_marker,
TM_CCOEFF_NORMED)`; `w` and `h` are the scaled marker dimensions; `none` is
the `(None, None, None)` failure return of lines 81-86. -/
def get_centres_global (res : RespArr) (min_matching_threshold : ℚ)
    (w h : Nat) : Option (List (ℚ × ℚ) × List (Nat × Nat × Nat × Nat) × ℚ) :=
  let candidates :=
    collectCandidates min_matching_threshold (suppressHalf w) (suppressHalf h)
      max_candidates res
  if candidates.length < 4 then none
  else centresFromCandidates w h candidates

/-- `apply_filter` lines 162-167 together with line 249 (global branch): on
localisation failure the `None` sentinel is returned at once; only on
success does the image reach the 4-point transform, abstracted as `fourPT`
(the rectangle annotation of lines 232-247 is modelled separately). -/
def applyFilterGlobalStage (fourPT : GrayImg → List (ℚ × ℚ) → GrayImg)
    (image : GrayImg) (res : RespArr) (min_matching_threshold : ℚ)
    (w h : Nat) : Option GrayImg :=
  match get_centres_global res min_matching_threshold w h with
  | none => none
  | some (centres, _rects, _avg) => some (fourPT image centres)

/-- C7: the global candidate scan performs at most 20 iterations
(`max_candidates`), stops as soon as the remaining maximum response drops
below the matching threshold, and when fewer than 4 candidates were
collected the localizer returns the failure sentinel and the global branch
of apply_filter returns `None` without invoking the 4-point transform. -/
theorem c7_global_failure_on_few_candidates
    (res : RespArr) (threshold : ℚ) (w h : Nat) :
    (collectCandidates threshold (suppressHalf w) (suppressHalf h)
      max_candidates res).length ≤ max_candidates ∧
    (∀ (work : RespArr) (fuel : Nat), (minMaxLocMax work).1 < threshold →
      collectCandidates threshold (suppressHalf w) (suppressHalf h)
        (fuel + 1) work = []) ∧
    ((collectCandidates threshold (suppressHalf w) (suppressHalf h)
        max_candidates res).length < 4 →
      get_centres_global res threshold w h = none ∧
      ∀ (fourPT : GrayImg → List (ℚ × ℚ) → GrayImg) (image : GrayImg),
        applyFilterGlobalStage fourPT image res threshold w h = none) := by
  refine ⟨collectCandidates_length_le threshold _ _ max_candidates res, ?_, ?_⟩
  · intro work fuel hlt
    unfold collectCandidates
    dsimp only
    rw [if_pos hlt]
  · intro hfew
    have hnone : get_centres_global res threshold w h = none := by
      unfold get_centres_global
      dsimp only
      rw [if_pos hfew]
    refine ⟨hnone, ?_⟩
    intro fourPT image
    unfold applyFilterGlobalStage
    rw [hnone]

/-- Concrete all-zero 2-by-2 response array: no candidate clears the
threshold 1. -/
def c7Res : RespArr := ⟨2, 2, fun _ _ => 0⟩

/-- C7 witness: on an all-zero response with threshold 1, no candidates are
collected, the localizer fails and the global branch returns `None`. -/
theorem c7_global_failure_witness :
    (collectCandidates 1 (suppressHalf 2) (suppressHalf 2)
      max_candidates c7Res).length ≤ max_candidates ∧
    (∀ (work : RespArr) (fuel : Nat), (minMaxLocMax work).1 < 1 →
      collectCandidates 1 (suppressHalf 2) (suppressHalf 2)
        (fuel + 1) work = []) ∧
    (get_centres_global c7Res 1 2 2 = none ∧
      ∀ (fourPT : GrayImg → List (ℚ × ℚ) → GrayImg) (image : GrayImg),
        applyFilterGlobalStage fourPT image c7Res 1 2 2 = none) :=
  ⟨(c7_global_failure_on_few_candidates c7Res 1 2 2).1,
   (c7_global_failure_on_few_candidates c7Res 1 2 2).2.1,
   (c7_global_failure_on_few_candidates c7Res 1 2 2).2.2 (by decide)⟩


/-- The "not strictly better" order used by the selection fold: smaller
area, or equal area and no larger summed score. -/
def comboNotBetter (w h : Nat) (c b : List (ℚ × Nat × Nat)) : Prop :=
  comboArea w h c < comboArea w h b ∨
    (comboArea w h c = comboArea w h b ∧ comboScore c ≤ comboScore b)

lemma comboNotBetter_refl (w h : Nat) (b : List (ℚ × Nat × Nat)) :
    comboNotBetter w h b b :=
  Or.inr ⟨rfl, le_refl _⟩

lemma comboNotBetter_trans (w h : Nat) (a b c : List (ℚ × Nat × Nat))
    (h1 : comboNotBetter w h a b) (h2 : comboNotBetter w h b c) :
    comboNotBetter w h a c := by
  rcases h1 with h1 | ⟨h1e, h1s⟩ <;> rcases h2 with h2 | ⟨h2e, h2s⟩
  · exact Or.inl (lt_trans h1 h2)
  · exact Or.inl (h2e ▸ h1)
  · exact Or.inl (h1e ▸ h2)
  · exact Or.inr ⟨h1e.trans h2e, le_trans h1s h2s⟩

lemma comboNotBetter_of_not_cond (w h : Nat) (c b : List (ℚ × Nat × Nat))
    (hn : ¬(comboArea w h c > comboArea w h b ∨
      (comboArea w h c = comboArea w h b ∧ comboScore c > comboScore b))) :
    comboNotBetter w h c b := by
  push_neg at hn
  rcases lt_or_eq_of_le hn.1 with hlt | heq
  · exact Or.inl hlt
  · exact Or.inr ⟨heq, hn.2 heq⟩

lemma comboNotBetter_of_cond (w h : Nat) (c b : List (ℚ × Nat × Nat))
    (hc : comboArea w h c > comboArea w h b ∨
      (comboArea w h c = comboArea w h b ∧ comboScore c > comboScore b)) :
    comboNotBetter w h b c := by
  rcases hc with hlt | ⟨heq, hs⟩
  · exact Or.inl hlt
  · exact Or.inr ⟨heq.symm, le_of_lt hs⟩

lemma selectBest_go (w h : Nat) :
    ∀ (combos : List (List (ℚ × Nat × Nat))) (b : List (ℚ × Nat × Nat)),
      ∃ b', combos.foldl (selBestStep w h) (some b) = some b' ∧
        (b' = b ∨ b' ∈ combos) ∧ comboNotBetter w h b b' ∧
        ∀ c ∈ combos, comboNotBetter w h c b' := by
  intro combos
  induction combos with
  | nil =>
    intro b
    exact ⟨b, rfl, Or.inl rfl, comboNotBetter_refl w h b, by simp⟩
  | cons c cs ih =>
    intro b
    rw [List.foldl_cons]
    by_cases hc : comboArea w h c > comboArea w h b ∨
        (comboArea w h c = comboArea w h b ∧ comboScore c > comboScore b)
    · have hstep : selBestStep w h (some b) c = some c := by
        show (if comboArea w h c > comboArea w h b ∨
            (comboArea w h c = comboArea w h b ∧ comboScore c > comboScore b)
          then some c else some b) = some c
        rw [if_pos hc]
      rw [hstep]
      obtain ⟨b', hfold, hmem, hle, hall⟩ := ih c
      refine ⟨b', hfold, ?_, ?_, ?_⟩
      · rcases hmem with hh | hh
        · exact Or.inr (hh ▸ List.mem_cons_self c cs)
        · exact Or.inr (List.mem_cons_of_mem c hh)
      · exact comboNotBetter_trans w h b c b' (comboNotBetter_of_cond w h c b hc) hle
      · intro c' hc'
        rcases List.mem_cons.mp hc' with hh | hh
        · exact hh ▸ hle
        · exact hall c' hh
    · have hstep : selBestStep w h (some b) c = some b := by
        show (if comboArea w h c > comboArea w h b ∨
            (comboArea w h c = comboArea w h b ∧ comboScore c > comboScore b)
          then some c else some b) = some b
        rw [if_neg hc]
      rw [hstep]
      obtain ⟨b', hfold, hmem, hle, hall⟩ := ih b
      refine ⟨b', hfold, ?_, hle, ?_⟩
      · rcases hmem with hh | hh
        · exact Or.inl hh
        · exact Or.inr (List.mem_cons_of_mem c hh)
      · intro c' hc'
        rcases List.mem_cons.mp hc' with hh | hh
        · exact hh ▸ comboNotBetter_trans w h c b b'
            (comboNotBetter_of_not_cond w h c b hc) hle
        · exact hall c' hh

lemma selectBest_spec (w h : Nat) (combos : List (List (ℚ × Nat × Nat)))
    (hne : combos ≠ []) :
    ∃ b', selectBest w h combos = some b' ∧ b' ∈ combos ∧
      ∀ c ∈ combos, comboNotBetter w h c b' := by
  rcases combos with _ | ⟨c, cs⟩
  · exact absurd rfl hne
  · unfold selectBest
    rw [List.foldl_cons]
    have hstep : selBestStep w h none c = some c := rfl
    rw [hstep]
    obtain ⟨b', hfold, hmem, hle, hall⟩ := selectBest_go w h cs c
    refine ⟨b', hfold, ?_, ?_⟩
    · rcases hmem with hb | hb
      · exact hb ▸ List.mem_cons_self c cs
      · exact List.mem_cons_of_mem c hb
    · intro c' hc'
      rcases List.mem_cons.mp hc' with hh | hh
      · exact hh ▸ hle
      · exact hall c' hh

lemma combosLen_ne_nil {α : Type} :
    ∀ (l : List α) (n : Nat), n ≤ l.length → combosLen n l ≠ [] := by
  intro l
  induction l with
  | nil =>
    intro n hn
    have hn0 : n = 0 := Nat.le_zero.mp hn
    subst hn0
    simp [combosLen]
  | cons a as ih =>
    intro n hn
    match n with
    | 0 => simp [combosLen]
    | m + 1 =>
      have hm : m ≤ as.length := Nat.le_of_succ_le_succ hn
      intro hnil
      rcases List.append_eq_nil.mp hnil with ⟨h1, _⟩
      exact ih m hm (List.map_eq_nil_iff.mp h1)

/-- C5: with at least 4 recorded candidates, the global selection enumerates
every 4-combination of the up-to-12 first-collected (highest-scoring)
candidates and returns one that maximises the bounding-box area of the
centres, with area ties broken towards a summed score at least as large;
the returned centres are top-left plus half the scaled marker dimensions,
the rectangles carry the scaled marker size, and the reported score is the
summed score over 4. -/
theorem c5_selection_maximises_area
    (w h : Nat) (cands : List (ℚ × Nat × Nat)) (h4 : 4 ≤ cands.length) :
    (∃ best, best ∈ combosLen 4 (cands.take (min cands.length 12)) ∧
      selectBest w h (combosLen 4 (cands.take (min cands.length 12))) = some best ∧
      (∀ c ∈ combosLen 4 (cands.take (min cands.length 12)),
        comboArea w h c < comboArea w h best ∨
          (comboArea w h c = comboArea w h best ∧ comboScore c ≤ comboScore best)) ∧
      centresFromCandidates w h cands =
        some (comboCentres w h best,
          best.map (fun t => (t.2.1, t.2.2, w, h)), comboScore best / 4) ∧
      comboCentres w h best =
        best.map (fun t => ((t.2.1 : ℚ) + (w : ℚ) / 2, (t.2.2 : ℚ) + (h : ℚ) / 2))) ∧
    (∀ (res : RespArr) (θ : ℚ),
      4 ≤ (collectCandidates θ (suppressHalf w) (suppressHalf h)
        max_candidates res).length →
      get_centres_global res θ w h =
        centresFromCandidates w h
          (collectCandidates θ (suppressHalf w) (suppressHalf h)
            max_candidates res)) := by
  constructor
  · have hlen : 4 ≤ (cands.take (min cands.length 12)).length := by
      rw [List.length_take]
      exact le_min (le_min h4 (by norm_num)) h4
    obtain ⟨best, hsel, hmem, hall⟩ :=
      selectBest_spec w h (combosLen 4 (cands.take (min cands.length 12)))
        (combosLen_ne_nil _ 4 hlen)
    refine ⟨best, hmem, hsel, fun c hc => hall c hc, ?_, rfl⟩
    unfold centresFromCandidates
    dsimp only
    rw [hsel]
  · intro res θ hge
    unfold get_centres_global
    dsimp only
    rw [if_neg (not_lt.mpr hge)]


/-- C5 witness: the selection theorem applied to four concrete candidates
with a 2-by-2 scaled marker. -/
theorem c5_selection_witness :
    (∃ best, best ∈ combosLen 4
        (([(1, 0, 0), (1, 10, 0), (1, 0, 10), (1, 10, 10)] :
          List (ℚ × Nat × Nat)).take
          (min ([(1, 0, 0), (1, 10, 0), (1, 0, 10), (1, 10, 10)] :
            List (ℚ × Nat × Nat)).length 12)) ∧
      selectBest 2 2 (combosLen 4
        (([(1, 0, 0), (1, 10, 0), (1, 0, 10), (1, 10, 10)] :
          List (ℚ × Nat × Nat)).take
          (min ([(1, 0, 0), (1, 10, 0), (1, 0, 10), (1, 10, 10)] :
            List (ℚ × Nat × Nat)).length 12))) = some best ∧
      (∀ c ∈ combosLen 4
          (([(1, 0, 0), (1, 10, 0), (1, 0, 10), (1, 10, 10)] :
            List (ℚ × Nat × Nat)).take
            (min ([(1, 0, 0), (1, 10, 0), (1, 0, 10), (1, 10, 10)] :
              List (ℚ × Nat × Nat)).length 12)),
        comboArea 2 2 c < comboArea 2 2 best ∨
          (comboArea 2 2 c = comboArea 2 2 best ∧
            comboScore c ≤ comboScore best)) ∧
      centresFromCandidates 2 2
          ([(1, 0, 0), (1, 10, 0), (1, 0, 10), (1, 10, 10)] :
            List (ℚ × Nat × Nat)) =
        some (comboCentres 2 2 best,
          best.map (fun t => (t.2.1, t.2.2, 2, 2)), comboScore best / 4) ∧
      comboCentres 2 2 best =
        best.map (fun t => ((t.2.1 : ℚ) + (2 : ℚ) / 2, (t.2.2 : ℚ) + (2 : ℚ) / 2))) ∧
    (∀ (res : RespArr) (θ : ℚ),
      4 ≤ (collectCandidates θ (suppressHalf 2) (suppressHalf 2)
        max_candidates res).length →
      get_centres_global res θ 2 2 =
        centresFromCandidates 2 2
          (collectCandidates θ (suppressHalf 2) (suppressHalf 2)
            max_candidates res)) :=
  c5_selection_maximises_area 2 2
    [(1, 0, 0), (1, 10, 0), (1, 0, 10), (1, 10, 10)] (by decide)


/-- The options relevant to mode selection (`CropOnMarkers.__init__`, lines
45-50): the optional `searchMode` string and the legacy `globalSearch`
boolean used to derive its default. -/
structure MarkerOptions where
  searchMode : Option String
  globalSearch : Bool

/-- Modelled after Python's `str.lower()` as called in `__init__` line 50:
lowercase every character. -/
def str_lower (s : String) : String := ⟨s.data.map Char.toLower⟩

/-- `__init__` lines 45-50: the stored `search_mode` — the configured string
(or the legacy-derived default) lowercased once at construction. -/
def searchModeOf (marker_ops : MarkerOptions) : String :=
  str_lower (marker_ops.searchMode.getD
    (if marker_ops.globalSearch then "global" else "quadrants"))

/-- The membership test of apply_filter lines 131 and 162:
`search_mode in {"global", "full", "all"}`. -/
def isGlobalMode (s : String) : Bool :=
  s == "global" || s == "full" || s == "all"

/-- The membership test of apply_filter line 179:
`search_mode in {"auto", "fallback"}`. -/
def isFallbackMode (s : String) : Bool :=
  s == "auto" || s == "fallback"

/-- Which localizer runs for a given (already lowercased) search mode. -/
inductive LocPath
  | globalSearch : LocPath
  | quadrants (fallbackOnReject : Bool) : LocPath
  deriving DecidableEq

/-- The localization dispatch assembled from apply_filter lines 131, 162 and
179: global search iff the mode is in {global, full, all}; otherwise
quadrant mode, falling back to global on a rejected quadrant iff the mode is
in {auto, fallback}. -/
def localizationPath (s : String) : LocPath :=
  if isGlobalMode s then .globalSearch else .quadrants (isFallbackMode s)

/-- Per-quadrant rejection test of apply_filter lines 175-177:
`max_t < min_matching_threshold or abs(all_max_t - max_t) >=
max_matching_variation`. -/
def quadReject (min_matching_threshold max_matching_variation
    all_max_t max_t : ℚ) : Bool :=
  decide (max_t < min_matching_threshold ∨
    max_matching_variation ≤ |all_max_t - max_t|)

/-- Outcome of the quadrant loop of apply_filter lines 169-213: all four
quadrants accepted; the auto/fallback switch to global search; or the fatal
per-image failure naming the first rejected quadrant. -/
inductive QuadScanOutcome
  | accepted : QuadScanOutcome
  | fellBackToGlobal : QuadScanOutcome
  | failed (k : Fin 4) : QuadScanOutcome
  deriving DecidableEq

/-- The quadrant loop of apply_filter lines 169-213 over the listed
quadrants: the first rejected quadrant either switches to global search
(auto/fallback mode, line 179-185) or fails the image (lines 187-213). -/
def quadScanFrom (fallbackMode : Bool) (reject : Fin 4 → Bool) :
    List (Fin 4) → QuadScanOutcome
  | [] => .accepted
  | k :: ks =>
      if reject k then
        (if fallbackMode then .fellBackToGlobal else .failed k)
      else quadScanFrom fallbackMode reject ks

/-- apply_filter lines 169-213 (control flow): quadrants scanned in order
0..3; `qresp k` abstracts `cv2.matchTemplate(quads[k], optimal_marker,
TM_CCOEFF_NORMED).max()`. -/
def quadScan (search_mode : String)
    (min_matching_threshold max_matching_variation all_max_t : ℚ)
    (qresp : Fin 4 → ℚ) : QuadScanOutcome :=
  quadScanFrom (isFallbackMode search_mode)
    (fun k => quadReject min_matching_threshold max_matching_variation
      all_max_t (qresp k))
    [0, 1, 2, 3]

/-- The per-quadrant rejection predicate as the spec words it: below the
threshold, OR differing from the whole-image best by strictly MORE than the
configured max variation. -/
def specQuadReject (min_matching_threshold max_matching_variation
    all_max_t max_t : ℚ) : Bool :=
  decide (max_t < min_matching_threshold ∨
    max_matching_variation < |all_max_t - max_t|)

lemma quadScanFrom_eq (fb : Bool) (r : Fin 4 → Bool) :
    quadScanFrom fb r [0, 1, 2, 3] =
      if r 0 then (if fb then .fellBackToGlobal else .failed 0)
      else if r 1 then (if fb then .fellBackToGlobal else .failed 1)
      else if r 2 then (if fb then .fellBackToGlobal else .failed 2)
      else if r 3 then (if fb then .fellBackToGlobal else .failed 3)
      else .accepted := rfl

lemma fin4_exists (p : Fin 4 → Prop) :
    (∃ k, p k) ↔ p 0 ∨ p 1 ∨ p 2 ∨ p 3 := by
  constructor
  · rintro ⟨k, hk⟩
    fin_cases k <;> tauto
  · rintro (h | h | h | h) <;> exact ⟨_, h⟩

lemma fin4_forall (p : Fin 4 → Prop) :
    (∀ k, p k) ↔ p 0 ∧ p 1 ∧ p 2 ∧ p 3 := by
  constructor
  · intro hk
    exact ⟨hk 0, hk 1, hk 2, hk 3⟩
  · rintro ⟨h0, h1, h2, h3⟩ k
    fin_cases k <;> assumption

/-- C4 counterexample: quadrant 0 scores 0.59 with whole-image best 1.0 and
the default tolerances (threshold 0.3, variation 0.41).  The difference is
exactly 0.41, which the spec's "more than" rejection predicate accepts for
every quadrant — yet the code compares with `>=` (line 177), rejects
quadrant 0 and fails the image in strict quadrant mode. -/
theorem c4_boundary_variation_counterexample :
    quadScan "quadrants" (3 / 10) (41 / 100) 1
      (fun k => if k = 0 then 59 / 100 else 1) = .failed 0 ∧
    ∀ k : Fin 4, specQuadReject (3 / 10) (41 / 100) 1
      ((fun k : Fin 4 => if k = 0 then (59 : ℚ) / 100 else 1) k) = false := by
  constructor
  · rw [quadScan, quadScanFrom_eq]
    have h0 : quadReject (3 / 10) (41 / 100) 1
        ((fun k : Fin 4 => if k = 0 then (59 : ℚ) / 100 else 1) 0) = true := by
      simp only [quadReject, decide_eq_true_eq]
      norm_num [abs_of_nonneg]
    rw [h0]
    rfl
  · intro k
    fin_cases k <;>
      · simp only [specQuadReject, decide_eq_false_iff_not, Fin.ext_iff]
        norm_num [abs_of_nonneg]

/-- C4 (amended): a quadrant is rejected iff its best score is below
`min_matching_threshold` OR it differs from the whole-image best `all_max_t`
by AT LEAST `max_matching_variation` (the comparison is `>=`, so a
difference hitting the variation exactly already rejects); in auto/fallback
mode the scan of the whole image switches to global search iff some quadrant
is rejected; the scan accepts iff no quadrant is rejected; and a fatal
failure names the first rejected quadrant and only happens outside
auto/fallback mode. -/
theorem c4_quadrant_rejection_and_fallback
    (search_mode : String) (θ v amax : ℚ) (qresp : Fin 4 → ℚ) :
    (∀ k : Fin 4, quadReject θ v amax (qresp k) = true ↔
      (qresp k < θ ∨ v ≤ |amax - qresp k|)) ∧
    (isFallbackMode search_mode = true →
      (quadScan search_mode θ v amax qresp = .fellBackToGlobal ↔
        ∃ k : Fin 4, quadReject θ v amax (qresp k) = true)) ∧
    (quadScan search_mode θ v amax qresp = .accepted ↔
      ∀ k : Fin 4, quadReject θ v amax (qresp k) = false) ∧
    (∀ k : Fin 4, quadScan search_mode θ v amax qresp = .failed k →
      isFallbackMode search_mode = false ∧
        quadReject θ v amax (qresp k) = true ∧
        ∀ j : Fin 4, j < k → quadReject θ v amax (qresp j) = false) := by
  refine ⟨fun k => by simp [quadReject], ?_, ?_, ?_⟩
  · intro hf
    rw [quadScan, quadScanFrom_eq, hf]
    cases h0 : quadReject θ v amax (qresp 0) <;>
      cases h1 : quadReject θ v amax (qresp 1) <;>
        cases h2 : quadReject θ v amax (qresp 2) <;>
          cases h3 : quadReject θ v amax (qresp 3) <;>
            simp [fin4_exists, h0, h1, h2, h3]
  · rw [quadScan, quadScanFrom_eq]
    cases hf : isFallbackMode search_mode <;>
      cases h0 : quadReject θ v amax (qresp 0) <;>
        cases h1 : quadReject θ v amax (qresp 1) <;>
          cases h2 : quadReject θ v amax (qresp 2) <;>
            cases h3 : quadReject θ v amax (qresp 3) <;>
              simp [fin4_forall, h0, h1, h2, h3]
  · intro k hk
    rw [quadScan, quadScanFrom_eq] at hk
    cases hf : isFallbackMode search_mode <;> rw [hf] at hk
    case false =>
      cases h0 : quadReject θ v amax (qresp 0) <;> rw [h0] at hk
      case true =>
        simp only [QuadScanOutcome.failed.injEq] at hk
        simp at hk
        subst hk
        refine ⟨rfl, h0, ?_⟩
        intro j hj
        exact absurd (Fin.lt_def.mp hj) (by omega)
      case false =>
        cases h1 : quadReject θ v amax (qresp 1) <;> rw [h1] at hk
        case true =>
          simp at hk
          subst hk
          refine ⟨rfl, h1, ?_⟩
          intro j hj
          have hv : j.val < 1 := Fin.lt_def.mp hj
          have hj0 : j = 0 := Fin.ext (by omega)
          subst hj0
          exact h0
        case false =>
          cases h2 : quadReject θ v amax (qresp 2) <;> rw [h2] at hk
          case true =>
            simp at hk
            subst hk
            refine ⟨rfl, h2, ?_⟩
            intro j hj
            have hv : j.val < 2 := Fin.lt_def.mp hj
            have hv2 : j.val = 0 ∨ j.val = 1 := by omega
            rcases hv2 with hj0 | hj0
            · have : j = 0 := Fin.ext hj0
              subst this
              exact h0
            · have : j = 1 := Fin.ext hj0
              subst this
              exact h1
          case false =>
            cases h3 : quadReject θ v amax (qresp 3) <;> rw [h3] at hk
            case true =>
              simp at hk
              subst hk
              refine ⟨rfl, h3, ?_⟩
              intro j hj
              have hv : j.val < 3 := Fin.lt_def.mp hj
              match j, hv with
              | ⟨0, _⟩, _ => exact h0
              | ⟨1, _⟩, _ => exact h1
              | ⟨2, _⟩, _ => exact h2
            case false =>
              exact absurd hk (by simp)
    case true =>
      cases h0 : quadReject θ v amax (qresp 0) <;>
        cases h1 : quadReject θ v amax (qresp 1) <;>
          cases h2 : quadReject θ v amax (qresp 2) <;>
            cases h3 : quadReject θ v amax (qresp 3) <;>
              simp [h0, h1, h2, h3] at hk

/-- C4 witness: the amended characterisation applied in fallback mode with
quadrant 2 rejected (score 0 below threshold 1). -/
theorem c4_quadrant_fallback_witness :
    (∀ k : Fin 4, quadReject 1 10 1
        ((fun k : Fin 4 => if k = 2 then (0 : ℚ) else 1) k) = true ↔
      ((fun k : Fin 4 => if k = 2 then (0 : ℚ) else 1) k < 1 ∨
        (10 : ℚ) ≤ |1 - (fun k : Fin 4 => if k = 2 then (0 : ℚ) else 1) k|)) ∧
    (isFallbackMode "auto" = true →
      (quadScan "auto" 1 10 1 (fun k => if k = 2 then (0 : ℚ) else 1) =
          .fellBackToGlobal ↔
        ∃ k : Fin 4, quadReject 1 10 1
          ((fun k : Fin 4 => if k = 2 then (0 : ℚ) else 1) k) = true)) ∧
    (quadScan "auto" 1 10 1 (fun k => if k = 2 then (0 : ℚ) else 1) =
        .accepted ↔
      ∀ k : Fin 4, quadReject 1 10 1
        ((fun k : Fin 4 => if k = 2 then (0 : ℚ) else 1) k) = false) ∧
    (∀ k : Fin 4, quadScan "auto" 1 10 1
        (fun k => if k = 2 then (0 : ℚ) else 1) = .failed k →
      isFallbackMode "auto" = false ∧
        quadReject 1 10 1
          ((fun k : Fin 4 => if k = 2 then (0 : ℚ) else 1) k) = true ∧
        ∀ j : Fin 4, j < k → quadReject 1 10 1
          ((fun k : Fin 4 => if k = 2 then (0 : ℚ) else 1) j) = false) :=
  c4_quadrant_rejection_and_fallback "auto" 1 10 1
    (fun k => if k = 2 then (0 : ℚ) else 1)


/-- Modelled from the spec: `cv2.rectangle` drawing a diagnostic rectangle —
the pixels on the axis-aligned outline between the two given corners receive
the given colour (the line width is abstracted to the outline itself). -/
def drawRect (color : ℤ) (m : GrayImg) (x0 y0 x1 y1 : Nat) : GrayImg :=
  { m with val := fun x y =>
      if (x0 ≤ x ∧ x ≤ x1 ∧ y0 ≤ y ∧ y ≤ y1) ∧
          (x = x0 ∨ x = x1 ∨ y = y0 ∨ y = y1) then color
      else m.val x y }

/-- apply_filter lines 232-247: a rectangle is drawn onto the image at every
accepted marker location `(x, y, w, h)` — corners `(x, y)` and
`(x + w, y + h)`. -/
def annotateRects (color : ℤ) (image : GrayImg)
    (rects : List (Nat × Nat × Nat × Nat)) : GrayImg :=
  rects.foldl
    (fun im r => drawRect color im r.1 r.2.1 (r.1 + r.2.2.1) (r.2.1 + r.2.2.2))
    image

/-- apply_filter lines 232-277 (final stage): both the original image and
the working image are annotated with rectangles at all accepted marker
locations, with no condition on the verbosity; the annotated original is
what reaches `four_point_transform` (line 249, abstracted as `fourPT`);
`show_image_level` gates ONLY the interactive debug display of lines
259-274, shown iff `2 <= level < 4`.  The result collects the annotated
original, the annotated working image, the transform output, and whether
the debug display fires. -/
def rectifyStage (fourPT : GrayImg → List (ℚ × ℚ) → GrayImg)
    (markerColor workingColor : ℤ) (show_image_level : Nat)
    (image image_eroded_sub : GrayImg) (centres : List (ℚ × ℚ))
    (rects : List (Nat × Nat × Nat × Nat)) :
    GrayImg × GrayImg × GrayImg × Bool :=
  let annotated := annotateRects markerColor image rects
  let annotated_eroded := annotateRects workingColor image_eroded_sub rects
  (annotated, annotated_eroded, fourPT annotated centres,
    decide (2 ≤ show_image_level ∧ show_image_level < 4))

/-- Concrete all-black 4-by-4 image for the annotation counterexample. -/
def c9Image : GrayImg := ⟨4, 4, fun _ _ => 0⟩

/-- C9 counterexample: at verbosity level 0 — which requests no diagnostics —
the image handed to the 4-point transform (the transform abstracted as the
identity, to expose its argument) still carries the marker rectangle: pixel
(0, 0) has been recoloured, so the transform input is NOT the unannotated
input image; and the debug display flag is false at level 0 and true at
level 2. -/
theorem c9_rectangles_drawn_at_level_zero :
    (rectifyStage (fun im _ => im) 255 150 0 c9Image c9Image []
      [(0, 0, 2, 2)]).2.2.1.val 0 0 = 255 ∧
    c9Image.val 0 0 = 0 ∧
    (rectifyStage (fun im _ => im) 255 150 0 c9Image c9Image []
      [(0, 0, 2, 2)]).2.2.2 = false ∧
    (rectifyStage (fun im _ => im) 255 150 2 c9Image c9Image []
      [(0, 0, 2, 2)]).2.2.2 = true := by
  refine ⟨by decide, rfl, by decide, by decide⟩

/-- C9 (amended): the diagnostic rectangles are drawn for EVERY verbosity
level — the two annotated images and the image handed to the 4-point
transform do not depend on `show_image_level` — and the verbosity gates only
the interactive debug display, which fires exactly for levels 2 and 3. -/
theorem c9_verbosity_gates_only_display
    (fourPT : GrayImg → List (ℚ × ℚ) → GrayImg) (markerColor workingColor : ℤ)
    (lvl : Nat) (image ies : GrayImg) (centres : List (ℚ × ℚ))
    (rects : List (Nat × Nat × Nat × Nat)) :
    (rectifyStage fourPT markerColor workingColor lvl image ies centres
      rects).1 = annotateRects markerColor image rects ∧
    (rectifyStage fourPT markerColor workingColor lvl image ies centres
      rects).2.1 = annotateRects workingColor ies rects ∧
    (rectifyStage fourPT markerColor workingColor lvl image ies centres
      rects).2.2.1 = fourPT (annotateRects markerColor image rects) centres ∧
    ((rectifyStage fourPT markerColor workingColor lvl image ies centres
      rects).2.2.2 = true ↔ (2 ≤ lvl ∧ lvl < 4)) :=
  ⟨rfl, rfl, rfl, by simp [rectifyStage]⟩

/-- C10: the configured search mode is lowercased once at construction
(including the default derived from the legacy `globalSearch` boolean); the
global localization path is taken exactly for the lowercased modes
"global"/"full"/"all"; quadrant-failure fallback applies exactly for
"auto"/"fallback"; and every other string — including misspellings such as
"globel" — silently selects strict quadrant mode with no fallback. -/
theorem c10_search_mode_dispatch :
    (∀ (raw : String) (legacy : Bool),
      searchModeOf ⟨some raw, legacy⟩ = str_lower raw) ∧
    (searchModeOf ⟨none, true⟩ = "global" ∧
      searchModeOf ⟨none, false⟩ = "quadrants") ∧
    (∀ s : String, localizationPath s = .globalSearch ↔
      (s = "global" ∨ s = "full" ∨ s = "all")) ∧
    (∀ s : String, localizationPath s = .quadrants true ↔
      (¬(s = "global" ∨ s = "full" ∨ s = "all") ∧
        (s = "auto" ∨ s = "fallback"))) ∧
    (∀ s : String, ¬(s = "global" ∨ s = "full" ∨ s = "all") →
      ¬(s = "auto" ∨ s = "fallback") →
      localizationPath s = .quadrants false) ∧
    localizationPath (searchModeOf ⟨some "GLOBAL", false⟩) = .globalSearch ∧
    localizationPath (searchModeOf ⟨some "globel", false⟩) = .quadrants false := by
  refine ⟨fun raw legacy => rfl, ⟨by decide, by decide⟩, ?_, ?_, ?_, ?_, ?_⟩
  · intro s
    unfold localizationPath
    by_cases hg : isGlobalMode s = true
    · rw [if_pos hg]
      simp only [isGlobalMode, Bool.or_eq_true, beq_iff_eq] at hg
      simp only [true_iff]
      tauto
    · rw [if_neg hg]
      simp only [isGlobalMode, Bool.or_eq_true, beq_iff_eq] at hg
      push_neg at hg
      simp [hg]
  · intro s
    unfold localizationPath
    by_cases hg : isGlobalMode s = true
    · rw [if_pos hg]
      simp only [isGlobalMode, Bool.or_eq_true, beq_iff_eq] at hg
      constructor
      · intro h
        exact absurd h (by simp)
      · intro h
        exact absurd (by tauto : s = "global" ∨ s = "full" ∨ s = "all") h.1
    · rw [if_neg hg]
      simp only [isGlobalMode, Bool.or_eq_true, beq_iff_eq] at hg
      push_neg at hg
      simp only [LocPath.quadrants.injEq, isFallbackMode, Bool.or_eq_true,
        beq_iff_eq]
      constructor
      · intro h
        exact ⟨by tauto, h⟩
      · intro h
        exact h.2
  · intro s hg hf
    unfold localizationPath
    rw [if_neg ?_, ]
    · congr 1
      simp only [isFallbackMode, Bool.or_eq_true, beq_iff_eq]
      push_neg at hf
      simp [hf]
    · simp only [isGlobalMode, Bool.or_eq_true, beq_iff_eq]
      push_neg at hg
      simp [hg]
  · decide
  · decide

end OMRChecker
